import Mathlib

/-!
Verification of `src/utils.py` of the `multimodal` repository.

The module is shallowly embedded: Python strings are Lean `String`s
(manipulated through their character lists), the environment and the set
of importable optional dependencies are explicit records; the filesystem is the
list of existing directories, and every `raise` site of
`resolve_embed_model` is a distinct constructor of an error type.  The
function `resolve_embed_model` below is a line-by-line translation of the
Python function of the same name (lines 41-162 of `src/utils.py`), and
`save_embedding` / `load_embedding` translate the persistence helpers
(lines 13-24), with a file modelled by its textual content.
-/

/-- Python `s.split(sep)` for a one-character separator, on character lists:
`""` gives `[""]`, and every occurrence of the separator opens a new field. -/
def splitAux (sep : Char) : List Char → List (List Char)
  | [] => [[]]
  | c :: cs =>
    match splitAux sep cs with
    | [] => [[]]
    | h :: t => if c = sep then [] :: h :: t else (c :: h) :: t

/-- Python `s.split(sep, 1)`: the part before the first separator, and the
remainder after it when the separator occurs at all. -/
def split1Aux (sep : Char) : List Char → List Char × Option (List Char)
  | [] => ([], none)
  | c :: cs =>
    if c = sep then ([], some cs)
    else
      let r := split1Aux sep cs
      (c :: r.1, r.2)

/-- Membership of a character in a character list, as a boolean (Python
`sep in s` for a one-character `sep`). -/
def charIn (c : Char) : List Char → Bool
  | [] => false
  | d :: ds => c = d || charIn c ds

/-- Boolean list-prefix test (Python `s.startswith(p)`), on character lists. -/
def isPrefixChars : List Char → List Char → Bool
  | [], _ => true
  | _ :: _, [] => false
  | a :: as, b :: bs => a = b && isPrefixChars as bs

/-- Python `s.split(sep)` on `String`. -/
def pySplit (s : String) (sep : Char) : List String :=
  (splitAux sep s.data).map String.mk

/-- Python `s.split(sep, 1)` on `String`. -/
def pySplitFirst (s : String) (sep : Char) : String × Option String :=
  let r := split1Aux sep s.data
  (String.mk r.1, r.2.map String.mk)

/-- Python `s.startswith(p)` on `String`. -/
def pyStartsWith (s p : String) : Bool := isPrefixChars p.data s.data

/-- Python `c in s` for a one-character needle, on `String`. -/
def pyContainsChar (s : String) (c : Char) : Bool := charIn c s.data

/-- Truthiness of an `os.getenv` result: set and non-empty. -/
def envTruthy : Option String → Bool
  | none => false
  | some s => !(s.data.isEmpty)

/-- Python `os.path.join(a, b)` for a relative second component. -/
def os_path_join (a b : String) : String :=
  if a.data.isEmpty then b
  else if a.data.getLast? = some '/' then a ++ b
  else a ++ "/" ++ b

/-- Python `os.makedirs(p, exist_ok=ok)` over a filesystem modelled as the
list of existing directories: fails only when the directory exists and
`exist_ok` is false. -/
def os_makedirs (fs : List String) (p : String) (exist_ok : Bool) :
    Except Unit (List String) :=
  if p ∈ fs then (if exist_ok then .ok fs else .error ()) else .ok (p :: fs)

deriving instance DecidableEq for Except

/-- The observable identity of a provider object produced or passed through
by the resolver (`MockEmbedding`, `OpenAIEmbedding`, `ClipEmbedding`,
`HuggingFaceEmbedding`, `LangchainEmbedding`, a langchain `Embeddings`
instance, or an arbitrary pre-built `BaseEmbedding`). -/
inductive ObjKind where
  | mock (embed_dim : Nat)
  | openai
  | clip (model_name : String)
  | huggingface (model_name : Option String) (cache_folder : String)
  | langchainWrapped
  | lcEmbInstance
  | preBuilt (id : Nat)
deriving DecidableEq

/-- A Python object that supports attribute assignment: its kind together
with its current `callback_manager` attribute. -/
structure PyObj where
  kind : ObjKind
  callback_manager : Option Nat
deriving DecidableEq

/-- The dynamic values the `embed_model` variable can hold: a string, an
attribute-bearing object, the raw vector produced by
`get_azure_openai_embedding`, Python `None`, or any other value (an `int`,
say) that supports neither the string operations nor attribute assignment. -/
inductive PyVal where
  | str (s : String)
  | obj (o : PyObj)
  | rawVector
  | pynone
  | junk
deriving DecidableEq

/-- One constructor per `raise` site of `resolve_embed_model`, plus the
`AttributeError` that Python raises when `embed_model.callback_manager = ...`
is executed on a value without settable attributes, and the `OSError` that
`os.makedirs` could raise. -/
inductive Err where
  | importErrorOpenai
  | credentialErrorOpenai (orig : String)
  | importErrorClip
  | importErrorHuggingface
  | invalidLocalSpec
  | importErrorLangchain
  | invalidAzureForm
  | azureKeyMissing
  | importErrorAzureLegacy
  | attributeError
  | osError
deriving DecidableEq

/-- The errors the spec classifies as `InvalidSpecifier` (a `ValueError`
about a malformed specifier string: wrong prefix at line 113 of
`src/utils.py`, wrong field count at line 145). -/
def Err.isInvalidSpecifier : Err → Bool
  | .invalidLocalSpec => true
  | .invalidAzureForm => true
  | _ => false

/-- The errors the spec classifies as `MissingDependency`: the four
`ImportError`s whose message names an installable package. -/
def Err.isMissingDependency : Err → Bool
  | .importErrorOpenai => true
  | .importErrorClip => true
  | .importErrorHuggingface => true
  | .importErrorLangchain => true
  | _ => false

/-- The message text of each error, exactly as written in `src/utils.py`
(adjacent string literals concatenated; `\x27` is the apostrophe). -/
def Err.message : Err → String
  | .importErrorOpenai =>
      "`llama-index-embeddings-openai` package not found, please run `pip install llama-index-embeddings-openai`"
  | .credentialErrorOpenai orig =>
      "\n******\nCould not load OpenAI embedding model. If you intended to use OpenAI, please check your OPENAI_API_KEY.\nOriginal error:\n" ++ orig ++ "\nConsider using embed_model=\x27local\x27.\nVisit our documentation for more embedding options: https://docs.llamaindex.ai/en/stable/module_guides/models/embeddings.html#modules\n******"
  | .importErrorClip =>
      "`llama-index-embeddings-clip` package not found, please run `pip install llama-index-embeddings-clip` and `pip install git+https://github.com/openai/CLIP.git`"
  | .importErrorHuggingface =>
      "`llama-index-embeddings-huggingface` package not found, please run `pip install llama-index-embeddings-huggingface`"
  | .invalidLocalSpec =>
      "embed_model must start with str \x27local\x27 or of type BaseEmbedding"
  | .importErrorLangchain =>
      "`llama-index-embeddings-langchain` package not found, please run `pip install llama-index-embeddings-langchain`"
  | .invalidAzureForm =>
      "For Azure OpenAI, embed_model should be of the form \x27azure-openai:<endpoint>:<model_name>:<api_version>\x27"
  | .azureKeyMissing =>
      "AZURE_OPENAI_API_KEY environment variable is not set."
  | .importErrorAzureLegacy => ""
  | .attributeError => ""
  | .osError => ""

/-- Substring test (needle occurs contiguously in the haystack), on
character lists. -/
def subChars (needle : List Char) : List Char → Bool
  | [] => needle.isEmpty
  | c :: cs => isPrefixChars needle (c :: cs) || subChars needle cs

/-- Substring test on `String`. -/
def strContains (hay needle : String) : Bool := subChars needle.data hay.data

/-- The ambient state read by `resolve_embed_model`: the two environment
variables it consults, the cache root returned by `get_cache_dir`, and
whether `validate_openai_api_key` accepts the ambient OpenAI credentials
(with the text of the `ValueError` it raises when it does not). -/
structure Env where
  IS_TESTING : Option String
  AZURE_OPENAI_API_KEY : Option String
  cache_dir : String
  openai_key_valid : Bool
  openai_error : String

/-- Which optional dependencies are importable: the
`llama_index.core.bridge.langchain` bridge (whose failure merely leaves
`LCEmbeddings = None`), the four provider packages, and the legacy Azure
module imported by `get_azure_openai_embedding`. -/
structure Deps where
  langchain_bridge : Bool
  openai : Bool
  clip : Bool
  huggingface : Bool
  langchain : Bool
  azure_legacy : Bool

/-- The side effects of one call: lines printed to standard output, and the
directories existing afterwards. -/
structure Effects where
  stdout : List String
  fs : List String
deriving DecidableEq

/-- The process-wide `Settings.callback_manager` default (an opaque handle,
modelled by an identifier). -/
def settings_callback_manager : Nat := 0

/-- Python `embed_model == "default"`: true exactly for the string
`"default"` (equality of a non-string with a string is `False`). -/
def pyEqDefault : PyVal → Bool
  | .str s => s = "default"
  | _ => false

/-- Python `isinstance(embed_model, LCEmbeddings)`: true exactly for a
langchain `Embeddings` instance. -/
def isLCEmb : PyVal → Bool
  | .obj ⟨.lcEmbInstance, _⟩ => true
  | _ => false

/-- Line 160, `embed_model.callback_manager = cb`: succeeds on any
attribute-bearing object and raises `AttributeError` on a string, a list
(the raw Azure vector), `None`, or another attribute-less value. -/
def setCallbackManager (v : PyVal) (cb : Nat) : Except Err PyVal :=
  match v with
  | .obj o => .ok (.obj { o with callback_manager := some cb })
  | _ => .error .attributeError

/-- Lines 103-127 of `src/utils.py`, `if isinstance(embed_model, str)`: the
generic string handler.  It first imports the huggingface package, then
requires the field before the first colon to be exactly `"local"`, then
creates the cache directory and constructs the provider.  A non-string
value passes through untouched. -/
def localStringStep (v : PyVal) (env : Env) (deps : Deps) (fs : List String) :
    Except Err (PyVal × List String) :=
  match v with
  | .str s =>
    if deps.huggingface = false then .error .importErrorHuggingface
    else if (pySplitFirst s ':').1 ≠ "local" then .error .invalidLocalSpec
    else
      match os_makedirs fs (os_path_join env.cache_dir "models") true with
      | .error _ => .error .osError
      | .ok fs' =>
          .ok (.obj ⟨.huggingface (pySplitFirst s ':').2
            (os_path_join env.cache_dir "models"), none⟩, fs')
  | _ => .ok (v, fs)

/-- Lines 129-140 of `src/utils.py`,
`if LCEmbeddings is not None and isinstance(embed_model, LCEmbeddings)`:
wrap a langchain `Embeddings` instance in `LangchainEmbedding`. -/
def langchainWrapStep (v : PyVal) (deps : Deps) : Except Err PyVal :=
  if deps.langchain_bridge && isLCEmb v then
    if deps.langchain = false then .error .importErrorLangchain
    else .ok (.obj ⟨.langchainWrapped, none⟩)
  else .ok v

/-- Lines 142-154 of `src/utils.py`, the `azure-openai` block: for a string
with that leading text, require exactly four colon fields, then the
`AZURE_OPENAI_API_KEY` environment variable, then call
`get_azure_openai_embedding`, whose raw vector replaces `embed_model`. -/
def azureStep (v : PyVal) (env : Env) (deps : Deps) : Except Err PyVal :=
  match v with
  | .str s =>
    if pyStartsWith s "azure-openai" then
      if (pySplit s ':').length ≠ 4 then .error .invalidAzureForm
      else if envTruthy env.AZURE_OPENAI_API_KEY = false then .error .azureKeyMissing
      else if deps.azure_legacy = false then .error .importErrorAzureLegacy
      else .ok .rawVector
    else .ok v
  | _ => .ok v

/-- Lines 156-158 of `src/utils.py`, `if embed_model is None`: the printed
notice and the dimension-1 mock replacing an explicit `None`. -/
def noneFallbackStep (v : PyVal) : List String × PyVal :=
  match v with
  | .pynone =>
      (["Embeddings have been explicitly disabled. Using MockEmbedding."],
        .obj ⟨.mock 1, none⟩)
  | _ => ([], v)

/-- Lines 103-162 of `src/utils.py`: everything after the `"default"` and
`"clip"` branches — the generic string handler, the langchain wrap, the
`azure-openai` block, the explicit-disable `None` fallback, and the final
`callback_manager` assignment (line 160).  `cb` is the already-computed
`callback_manager or Settings.callback_manager` value. -/
def resolveTail (v : PyVal) (cb : Nat) (env : Env) (deps : Deps)
    (fs : List String) : Effects × Except Err PyVal :=
  match localStringStep v env deps fs with
  | .error e => (⟨[], fs⟩, .error e)
  | .ok (v1, fs1) =>
    match langchainWrapStep v1 deps with
    | .error e => (⟨[], fs1⟩, .error e)
    | .ok v2 =>
      match azureStep v2 env deps with
      | .error e => (⟨[], fs1⟩, .error e)
      | .ok v3 =>
        match noneFallbackStep v3 with
        | (notice, v4) =>
          match setCallbackManager v4 cb with
          | .error e => (⟨notice, fs1⟩, .error e)
          | .ok v5 => (⟨notice, fs1⟩, .ok v5)

/-- Lines 41-162 of `src/utils.py`, `resolve_embed_model`: the input value,
the optional caller callback manager, the ambient environment, the set
of importable dependencies and the existing directories, mapped to the side
effects and either the returned value or the raised error. -/
def resolve_embed_model (embed_model : PyVal) (callback_manager : Option Nat)
    (env : Env) (deps : Deps) (fs : List String) : Effects × Except Err PyVal :=
  -- lines 53-87: `if embed_model == "default"`
  if pyEqDefault embed_model then
    if envTruthy env.IS_TESTING then
      (⟨[], fs⟩,
        .ok (.obj ⟨.mock 8, some (callback_manager.getD settings_callback_manager)⟩))
    else if deps.openai = false then (⟨[], fs⟩, .error .importErrorOpenai)
    else if env.openai_key_valid = false then
      (⟨[], fs⟩, .error (.credentialErrorOpenai env.openai_error))
    else
      resolveTail (.obj ⟨.openai, none⟩)
        (callback_manager.getD settings_callback_manager) env deps fs
  else
    -- lines 89-101: `elif isinstance(embed_model, str) and ...clip...`
    match embed_model with
    | .str s =>
      if pyStartsWith s "clip" then
        if deps.clip = false then (⟨[], fs⟩, .error .importErrorClip)
        else
          resolveTail
            (.obj ⟨.clip (if pyContainsChar s ':' then (pySplit s ':').getD 1 ""
                          else "ViT-B/32"), none⟩)
            (callback_manager.getD settings_callback_manager) env deps fs
      else
        resolveTail embed_model
          (callback_manager.getD settings_callback_manager) env deps fs
    | _ =>
      resolveTail embed_model
        (callback_manager.getD settings_callback_manager) env deps fs

/-- The lines of a text-file content, as Python file iteration yields them:
each line keeps its trailing newline, and an empty content yields no lines. -/
def splitLines : List Char → List (List Char)
  | [] => []
  | c :: cs =>
    if c = '\n' then ['\n'] :: splitLines cs
    else
      match splitLines cs with
      | [] => [[c]]
      | l :: ls => (c :: l) :: ls

/-- Leading-whitespace removal, on character lists. -/
def dropLeadingWS : List Char → List Char
  | [] => []
  | c :: cs => if c.isWhitespace then dropLeadingWS cs else c :: cs

/-- Python `s.strip()`: whitespace removed from both ends. -/
def pyStrip (s : String) : String :=
  String.mk (dropLeadingWS ((dropLeadingWS s.data.reverse).reverse))

/-- Python `",".join(ts)`. -/
def joinComma : List String → String
  | [] => ""
  | [s] => s
  | s :: rest => s ++ "," ++ joinComma rest

/-- Joining character lists with a one-character separator (the character
level view of `joinComma`). -/
def joinWithChar (sep : Char) : List (List Char) → List Char
  | [] => []
  | [l] => l
  | l :: ls => l ++ sep :: joinWithChar sep ls

/-- An abstract model of Python `float` as the persistence helpers use it:
a carrier, `str(x)`, and `float(s)` (which is `none` when `float` would
raise `ValueError`).  Finite non-NaN floats are exactly the values whose
`str` image is a non-empty token free of commas and whitespace and on which
`float(str(x)) == x` holds, which the round-trip theorem takes as
hypotheses. -/
structure FloatModel where
  F : Type
  str : F → String
  ofStr : String → Option F

/-- A token whose parse-print round trip can survive `save`/`load`:
non-empty, and free of commas and whitespace (`str` of a finite non-NaN
Python float is such a token). -/
def cleanToken (s : String) : Bool :=
  !s.data.isEmpty && s.data.all (fun c => !(c == ',') && !c.isWhitespace)

/-- Lines 13-16 of `src/utils.py`, `save_embedding`: the content written to
`file_path` is the comma-join of the printed components. -/
def save_embedding (M : FloatModel) (embedding : List M.F) : String :=
  joinComma (embedding.map M.str)

/-- The Python list comprehension `[float(x) for x in tokens]`, with its
exception semantics: `none` as soon as one conversion fails. -/
def pyMapFloat (M : FloatModel) : List String → Option (List M.F)
  | [] => some []
  | t :: ts =>
    match M.ofStr t, pyMapFloat M ts with
    | some x, some xs => some (x :: xs)
    | _, _ => none

/-- Lines 18-24 of `src/utils.py`, `load_embedding`: parse the first line of
the file content (strip, split on commas, convert each token); an empty
file leaves the loop variable unbound (`none`). -/
def load_embedding (M : FloatModel) (content : String) : Option (List M.F) :=
  match splitLines content.data with
  | [] => none
  | l :: _ => pyMapFloat M (pySplit (pyStrip (String.mk l)) ',')

/-- A concrete ambient state: no environment variables set, the default
cache root, and OpenAI credential validation failing. -/
def envNoCreds : Env :=
  ⟨none, none, "/root/.cache/llama_index", false, "No API key found"⟩

/-- A concrete ambient state with the `IS_TESTING` flag set. -/
def envTesting : Env :=
  ⟨some "1", none, "/root/.cache/llama_index", false, "No API key found"⟩

/-- All optional dependencies importable. -/
def depsAll : Deps := ⟨true, true, true, true, true, true⟩

/-- Only the langchain bridge importable; every provider package missing. -/
def depsBare : Deps := ⟨true, false, false, false, false, false⟩

/-- A concrete `FloatModel` instance for witnesses: a one-value carrier
whose printed form is `"0"` and whose parser accepts exactly that token. -/
abbrev unitFloatModel : FloatModel :=
  ⟨Unit, fun _ => "0", fun s => if s = "0" then some () else none⟩
theorem data_append (a b : String) : (a ++ b).data = a.data ++ b.data := by
  cases a; cases b; rfl

theorem mk_data (s : String) : String.mk s.data = s := by cases s; rfl

theorem mk_ne_str (l : List Char) (t : String) (h : ¬ l = t.data) : ¬ String.mk l = t :=
  fun hh => h (congrArg String.data hh)

theorem charIn_append (c : Char) (a b : List Char) :
    charIn c (a ++ b) = (charIn c a || charIn c b) := by
  induction a with
  | nil => simp [charIn]
  | cons d ds ih => simp [charIn, ih, Bool.or_assoc]

theorem charIn_eq_false (c : Char) (l : List Char) : charIn c l = false ↔ c ∉ l := by
  induction l with
  | nil => simp [charIn]
  | cons d ds ih => simp [charIn, ih, not_or]

theorem splitAux_ne_nil (sep : Char) (l : List Char) : splitAux sep l ≠ [] := by
  cases l with
  | nil => simp [splitAux]
  | cons c cs =>
    simp only [splitAux]
    split
    · simp
    · split <;> simp

theorem splitAux_of_not_mem (sep : Char) (l : List Char) (h : charIn sep l = false) :
    splitAux sep l = [l] := by
  induction l with
  | nil => rfl
  | cons c cs ih =>
    simp only [charIn, Bool.or_eq_false_iff, decide_eq_false_iff_not] at h
    obtain ⟨h1, h2⟩ := h
    simp only [splitAux, ih h2]
    rw [if_neg (fun hc => h1 hc.symm)]

theorem splitAux_append_sep (sep : Char) (a b : List Char) (h : charIn sep a = false) :
    splitAux sep (a ++ sep :: b) = a :: splitAux sep b := by
  induction a with
  | nil =>
    simp only [List.nil_append, splitAux]
    cases hsp : splitAux sep b with
    | nil => exact absurd hsp (splitAux_ne_nil _ _)
    | cons h t => simp
  | cons c cs ih =>
    simp only [charIn, Bool.or_eq_false_iff, decide_eq_false_iff_not] at h
    obtain ⟨h1, h2⟩ := h
    rw [List.cons_append]
    simp only [splitAux, ih h2]
    rw [if_neg (fun hc => h1 hc.symm)]

theorem splitLines_no_newline (l : List Char) (hne : l ≠ []) (h : charIn '\n' l = false) :
    splitLines l = [l] := by
  induction l with
  | nil => simp at hne
  | cons c cs ih =>
    simp only [charIn, Bool.or_eq_false_iff, decide_eq_false_iff_not] at h
    obtain ⟨h1, h2⟩ := h
    by_cases hc : cs = []
    · subst hc
      simp only [splitLines]
      rw [if_neg (fun hh => h1 hh.symm)]
    · simp only [splitLines]
      rw [if_neg (fun hh => h1 hh.symm), ih hc h2]

theorem splitLines_append (l rest : List Char) (h : charIn '\n' l = false) :
    splitLines (l ++ '\n' :: rest) = (l ++ ['\n']) :: splitLines rest := by
  induction l with
  | nil => simp [splitLines]
  | cons c cs ih =>
    simp only [charIn, Bool.or_eq_false_iff, decide_eq_false_iff_not] at h
    obtain ⟨h1, h2⟩ := h
    rw [List.cons_append]
    simp only [splitLines, ih h2]
    rw [if_neg (fun hh => h1 hh.symm)]
    simp

theorem joinWithChar_cons_cons (sep : Char) (l l2 : List Char) (ls : List (List Char)) :
    joinWithChar sep (l :: l2 :: ls) = l ++ sep :: joinWithChar sep (l2 :: ls) := rfl

theorem splitAux_joinWithChar (sep : Char) (ls : List (List Char)) (hne : ls ≠ [])
    (h : ∀ l ∈ ls, charIn sep l = false) :
    splitAux sep (joinWithChar sep ls) = ls := by
  induction ls with
  | nil => simp at hne
  | cons l ls ih =>
    cases ls with
    | nil => exact splitAux_of_not_mem sep l (h l (by simp))
    | cons l2 ls2 =>
      rw [joinWithChar_cons_cons, splitAux_append_sep sep l _ (h l (by simp)),
        ih (by simp) (fun l' hl' => h l' (by simp [hl']))]

theorem charIn_joinWithChar (c sep : Char) (hc : ¬(c = sep)) (ls : List (List Char))
    (h : ∀ l ∈ ls, charIn c l = false) : charIn c (joinWithChar sep ls) = false := by
  induction ls with
  | nil => rfl
  | cons l ls ih =>
    cases ls with
    | nil => exact h l (by simp)
    | cons l2 ls2 =>
      rw [joinWithChar_cons_cons, charIn_append]
      simp only [charIn, Bool.or_eq_false_iff, decide_eq_false_iff_not]
      exact ⟨h l (by simp), hc, by simpa using ih (fun l' hl' => h l' (by simp [hl']))⟩

theorem mem_joinWithChar (sep : Char) (ls : List (List Char)) (c : Char)
    (hmem : c ∈ joinWithChar sep ls) : c = sep ∨ ∃ l ∈ ls, c ∈ l := by
  induction ls with
  | nil => simp [joinWithChar] at hmem
  | cons l ls ih =>
    cases ls with
    | nil =>
      right
      exact ⟨l, by simp, hmem⟩
    | cons l2 ls2 =>
      rw [joinWithChar_cons_cons] at hmem
      rcases List.mem_append.mp hmem with h1 | h2
      · exact Or.inr ⟨l, by simp, h1⟩
      · rcases List.mem_cons.mp h2 with h3 | h4
        · exact Or.inl h3
        · rcases ih h4 with h5 | ⟨l', hl', hc⟩
          · exact Or.inl h5
          · exact Or.inr ⟨l', by simp [hl'], hc⟩

theorem joinWithChar_ne_nil (sep : Char) (l : List Char) (ls : List (List Char))
    (hl : l ≠ []) : joinWithChar sep (l :: ls) ≠ [] := by
  cases ls with
  | nil => exact hl
  | cons l2 ls2 =>
    rw [joinWithChar_cons_cons]
    simp

theorem dropLeadingWS_id (l : List Char) (h : ∀ c ∈ l, c.isWhitespace = false) :
    dropLeadingWS l = l := by
  cases l with
  | nil => rfl
  | cons c cs => simp [dropLeadingWS, h c (by simp)]

theorem pyStrip_id (s : String) (h : ∀ c ∈ s.data, c.isWhitespace = false) :
    pyStrip s = s := by
  unfold pyStrip
  rw [dropLeadingWS_id _ (fun c hc => h c (List.mem_reverse.mp hc)), List.reverse_reverse,
    dropLeadingWS_id _ h, mk_data]

theorem joinComma_data (ts : List String) :
    (joinComma ts).data = joinWithChar ',' (ts.map String.data) := by
  induction ts with
  | nil => rfl
  | cons t ts ih =>
    cases ts with
    | nil => rfl
    | cons t2 ts2 =>
      show (t ++ "," ++ joinComma (t2 :: ts2)).data = _
      rw [data_append, data_append, ih]
      simp only [List.map_cons]
      rw [joinWithChar_cons_cons, List.append_assoc]
      rfl

theorem map_mk_map_data (ts : List String) : (ts.map String.data).map String.mk = ts := by
  induction ts with
  | nil => rfl
  | cons t ts ih => simp [ih, mk_data]

theorem pyMapFloat_map_str (M : FloatModel) (e : List M.F)
    (h : ∀ x ∈ e, M.ofStr (M.str x) = some x) :
    pyMapFloat M (e.map M.str) = some e := by
  induction e with
  | nil => rfl
  | cons x xs ih =>
    simp only [List.map_cons, pyMapFloat, h x (by simp),
      ih (fun y hy => h y (by simp [hy]))]

theorem setCallbackManager_ok (v u : PyVal) (cb : Nat)
    (h : setCallbackManager v cb = .ok u) :
    ∃ o : PyObj, u = .obj o ∧ o.callback_manager = some cb := by
  unfold setCallbackManager at h
  split at h
  · exact ⟨_, (Except.ok.inj h).symm, rfl⟩
  · simp_all

theorem resolveTail_obj (k : ObjKind) (c0 : Option Nat) (cb : Nat) (env : Env) (deps : Deps)
    (fs : List String) (hk : k ≠ .lcEmbInstance) :
    resolveTail (.obj ⟨k, c0⟩) cb env deps fs = (⟨[], fs⟩, .ok (.obj ⟨k, some cb⟩)) := by
  have hlc : isLCEmb (.obj ⟨k, c0⟩) = false := by
    cases k <;> simp_all [isLCEmb]
  unfold resolveTail
  simp [hlc, localStringStep, langchainWrapStep, azureStep, noneFallbackStep,
    setCallbackManager]

theorem resolveTail_shape (w : PyVal) (cb : Nat) (env : Env) (deps : Deps)
    (fs : List String) :
    (∃ eff e, resolveTail w cb env deps fs = (eff, Except.error e)) ∨
    (∃ eff o, resolveTail w cb env deps fs = (eff, Except.ok (PyVal.obj o)) ∧
      o.callback_manager = some cb) := by
  unfold resolveTail
  repeat' split
  all_goals
    first
    | exact Or.inl ⟨_, _, rfl⟩
    | (rename_i v5 hset
       obtain ⟨o, ho, hcb⟩ := setCallbackManager_ok _ _ _ hset
       subst ho
       exact Or.inr ⟨_, o, rfl, hcb⟩)

theorem resolveTail_ok_handle (w : PyVal) (cb : Nat) (env : Env) (deps : Deps)
    (fs : List String) (v : PyVal)
    (h : (resolveTail w cb env deps fs).2 = .ok v) :
    ∃ o : PyObj, v = .obj o ∧ o.callback_manager = some cb := by
  rcases resolveTail_shape w cb env deps fs with ⟨eff, e, hE⟩ | ⟨eff, o, hO, hcb⟩
  · rw [hE] at h
    simp at h
  · rw [hO] at h
    simp only [Except.ok.injEq] at h
    exact ⟨o, h.symm, hcb⟩

theorem localStringStep_error (v : PyVal) (env : Env) (deps : Deps) (fs : List String)
    (e : Err) (h : localStringStep v env deps fs = .error e) :
    e = .importErrorHuggingface ∨ e = .invalidLocalSpec ∨ e = .osError := by
  unfold localStringStep at h
  repeat' split at h
  all_goals simp_all

theorem langchainWrapStep_error (v : PyVal) (deps : Deps) (e : Err)
    (h : langchainWrapStep v deps = .error e) : e = .importErrorLangchain := by
  unfold langchainWrapStep at h
  repeat' split at h
  all_goals simp_all

theorem setCallbackManager_error (v : PyVal) (cb : Nat) (e : Err)
    (h : setCallbackManager v cb = .error e) : e = .attributeError := by
  unfold setCallbackManager at h
  split at h <;> simp_all

theorem localStringStep_ok_not_str (v v1 : PyVal) (env : Env) (deps : Deps)
    (fs fs1 : List String) (h : localStringStep v env deps fs = .ok (v1, fs1)) :
    ∀ s, v1 ≠ .str s := by
  unfold localStringStep at h
  repeat' split at h
  all_goals simp_all
  all_goals (intro s hs; subst hs; simp_all)

theorem langchainWrapStep_ok_not_str (v v2 : PyVal) (deps : Deps)
    (hv : ∀ s, v ≠ .str s) (h : langchainWrapStep v deps = .ok v2) :
    ∀ s, v2 ≠ .str s := by
  unfold langchainWrapStep at h
  repeat' split at h
  all_goals simp_all
  all_goals (intro s hs; subst hs; simp_all)

theorem azureStep_of_not_str (v : PyVal) (env : Env) (deps : Deps)
    (hv : ∀ s, v ≠ .str s) : azureStep v env deps = .ok v := by
  cases v <;> simp_all [azureStep]

theorem resolveTail_azure_dead (w : PyVal) (cb : Nat) (env : Env) (deps : Deps)
    (fs : List String) :
    (resolveTail w cb env deps fs).2 ≠ .error .invalidAzureForm ∧
    (resolveTail w cb env deps fs).2 ≠ .error .azureKeyMissing ∧
    (resolveTail w cb env deps fs).2 ≠ .error .importErrorAzureLegacy := by
  unfold resolveTail
  rcases hL : localStringStep w env deps fs with eL | ⟨v1, fs1⟩
  · rcases localStringStep_error _ _ _ _ _ hL with h | h | h <;> subst h <;> simp [hL]
  · rcases hW : langchainWrapStep v1 deps with eW | v2
    · have heW := langchainWrapStep_error _ _ _ hW
      subst heW
      simp [hL, hW]
    · have hv2 : ∀ s, v2 ≠ .str s :=
        langchainWrapStep_ok_not_str _ _ _ (localStringStep_ok_not_str _ _ _ _ _ _ hL) hW
      rcases hS : setCallbackManager (noneFallbackStep v2).2 cb with eS | v5
      · have heS := setCallbackManager_error _ _ _ hS
        subst heS
        simp [hL, hW, azureStep_of_not_str _ env deps hv2, hS]
      · simp [hL, hW, azureStep_of_not_str _ env deps hv2, hS]

/-- C1: the claim says `"azure-openai:a:b"` fails the four-field check while
`"azure-openai:a:b:c"` proceeds to the `AZURE_OPENAI_API_KEY` lookup.  In the
code the whole azure-openai block (lines 142-154 of `src/utils.py`) is
unreachable: every string that reaches the generic string handler at line 103
is either rejected there or replaced by a provider object, so no resolution
can ever raise the four-field error or the missing-key error, and both azure
specifiers instead fail at line 113 with the must-start-with-local
`ValueError` (under every dependency available and the key unset). -/
theorem azure_branch_unreachable :
    (∀ (em : PyVal) (cbm : Option Nat) (env : Env) (deps : Deps) (fs : List String),
      (resolve_embed_model em cbm env deps fs).2 ≠ .error .invalidAzureForm ∧
      (resolve_embed_model em cbm env deps fs).2 ≠ .error .azureKeyMissing) ∧
    (resolve_embed_model (.str "azure-openai:a:b:c") none envNoCreds depsAll []).2
      = .error .invalidLocalSpec ∧
    (resolve_embed_model (.str "azure-openai:a:b") none envNoCreds depsAll []).2
      = .error .invalidLocalSpec ∧
    Err.isInvalidSpecifier .invalidLocalSpec = true := by
  refine ⟨?_, by decide, by decide, rfl⟩
  intro em cbm env deps fs
  unfold resolve_embed_model
  repeat' split
  all_goals first
  | exact ⟨(resolveTail_azure_dead _ _ _ _ _).1, (resolveTail_azure_dead _ _ _ _ _).2.1⟩
  | exact ⟨by simp, by simp⟩

/-- C2: `resolve_embed_model` is a total function into `Except`, so each call
yields exactly one returned value or one raised error, never both and never
neither; and every returned value — on the test-mode mock short-circuit, the
explicit-disable mock, and every pass-through or constructed provider — is an
attribute-bearing object whose `callback_manager` is the caller-supplied
handle or, absent one, the `Settings.callback_manager` default. -/
theorem resolve_ok_handle_bound (em : PyVal) (cbm : Option Nat) (env : Env) (deps : Deps)
    (fs : List String) (v : PyVal)
    (h : (resolve_embed_model em cbm env deps fs).2 = .ok v) :
    ∃ o : PyObj, v = .obj o ∧
      o.callback_manager = some (cbm.getD settings_callback_manager) := by
  unfold resolve_embed_model at h
  repeat' split at h
  all_goals first
  | exact ⟨_, (Except.ok.inj h).symm, rfl⟩
  | exact resolveTail_ok_handle _ _ _ _ _ _ h
  | exact absurd h (by simp)

theorem resolve_ok_handle_bound_witness :
    ((resolve_embed_model .pynone (some 7) envNoCreds depsAll []).2
        = .ok (.obj ⟨.mock 1, some 7⟩)) ∧
    ∃ o : PyObj, PyVal.obj ⟨.mock 1, some 7⟩ = .obj o ∧
      o.callback_manager = some ((some 7 : Option Nat).getD settings_callback_manager) :=
  ⟨by decide, resolve_ok_handle_bound .pynone (some 7) envNoCreds depsAll []
      (.obj ⟨.mock 1, some 7⟩) (by decide)⟩

/-- C3 counterexample: a non-string, non-provider specifier (an `int`, say)
is not rejected with an `InvalidSpecifier` error as the claim states; it
falls through every branch and fails only at the `callback_manager`
assignment of line 160 with an unclassified `AttributeError`. -/
theorem junk_specifier_not_invalid :
    (resolve_embed_model .junk none envNoCreds depsAll []).2 = .error .attributeError ∧
    Err.isInvalidSpecifier .attributeError = false := by decide

/-- C3 (amended): every string specifier other than `"default"`, not
starting with `"clip"`, and whose first colon-delimited field is not
`"local"`, fails with the `InvalidSpecifier` `ValueError` of line 113,
provided the local-family dependency is importable (when it is not, that
missing-dependency error is raised first); non-string, non-provider values are
passed through and fail with an unclassified `AttributeError`. -/
theorem unrecognized_string_invalid (s : String) (cbm : Option Nat) (env : Env)
    (deps : Deps) (fs : List String) (hhf : deps.huggingface = true)
    (hdef : s ≠ "default") (hclip : pyStartsWith s "clip" = false)
    (hlocal : (pySplitFirst s ':').1 ≠ "local") :
    (resolve_embed_model (.str s) cbm env deps fs).2 = .error .invalidLocalSpec ∧
    Err.isInvalidSpecifier .invalidLocalSpec = true := by
  refine ⟨?_, rfl⟩
  have h1 : pyEqDefault (.str s) = false := by
    simp only [pyEqDefault]
    exact decide_eq_false hdef
  unfold resolve_embed_model
  simp [h1, hclip, resolveTail, localStringStep, hhf, hlocal]

theorem unrecognized_string_invalid_witness :
    depsAll.huggingface = true ∧ ("foobar" : String) ≠ "default" ∧
    pyStartsWith "foobar" "clip" = false ∧ (pySplitFirst "foobar" ':').1 ≠ "local" ∧
    ((resolve_embed_model (.str "foobar") none envNoCreds depsAll []).2
        = .error .invalidLocalSpec ∧
      Err.isInvalidSpecifier .invalidLocalSpec = true) :=
  ⟨rfl, by decide, by decide, by decide,
    unrecognized_string_invalid "foobar" none envNoCreds depsAll [] rfl (by decide)
      (by decide) (by decide)⟩

/-- C4: whenever the `IS_TESTING` environment flag is truthy, resolving the
`"default"` sentinel returns a mock provider of vector dimensionality 8 with
its handle bound, immediately: no dependency flag is consulted, no credential
is validated, nothing is printed and no directory is created, whatever the
rest of the environment holds. -/
theorem testing_default_mock8 (cbm : Option Nat) (env : Env) (deps : Deps)
    (fs : List String) (ht : envTruthy env.IS_TESTING = true) :
    resolve_embed_model (.str "default") cbm env deps fs
      = (⟨[], fs⟩,
          .ok (.obj ⟨.mock 8, some (cbm.getD settings_callback_manager)⟩)) := by
  have h1 : pyEqDefault (.str "default") = true := by decide
  unfold resolve_embed_model
  simp [h1, ht]

theorem testing_default_mock8_witness :
    envTruthy envTesting.IS_TESTING = true ∧
    resolve_embed_model (.str "default") none envTesting depsBare []
      = (⟨[], []⟩, .ok (.obj ⟨.mock 8, some 0⟩)) :=
  ⟨rfl, testing_default_mock8 none envTesting depsBare [] rfl⟩

/-- C5: resolving the explicit-disable specifier `None` always returns a
mock provider of vector dimensionality 1 with its handle bound, and always
prints the disabled-embeddings notice to standard output. -/
theorem none_disable_mock1_notice (cbm : Option Nat) (env : Env) (deps : Deps)
    (fs : List String) :
    resolve_embed_model .pynone cbm env deps fs
      = (⟨["Embeddings have been explicitly disabled. Using MockEmbedding."], fs⟩,
          .ok (.obj ⟨.mock 1, some (cbm.getD settings_callback_manager)⟩)) := by
  unfold resolve_embed_model
  simp [pyEqDefault, resolveTail, localStringStep, langchainWrapStep, isLCEmb,
    azureStep, noneFallbackStep, setCallbackManager]

/-- C6: the local path splits on the first colon only; with the huggingface
dependency importable, `"local:foo"` succeeds passing `"foo"` as the model
name and `"local"` succeeds passing the family default (`None`), both using
the shared cache directory `<cache-root>/models`, which is created when
absent and tolerated when pre-existing (the same call succeeds for every
prior filesystem state, which afterwards contains the directory). -/
theorem local_string_resolution (cbm : Option Nat) (env : Env) (deps : Deps)
    (fs : List String) (hhf : deps.huggingface = true) :
    resolve_embed_model (.str "local:foo") cbm env deps fs
      = (⟨[], if os_path_join env.cache_dir "models" ∈ fs then fs
              else os_path_join env.cache_dir "models" :: fs⟩,
         .ok (.obj ⟨.huggingface (some "foo") (os_path_join env.cache_dir "models"),
                some (cbm.getD settings_callback_manager)⟩)) ∧
    resolve_embed_model (.str "local") cbm env deps fs
      = (⟨[], if os_path_join env.cache_dir "models" ∈ fs then fs
              else os_path_join env.cache_dir "models" :: fs⟩,
         .ok (.obj ⟨.huggingface none (os_path_join env.cache_dir "models"),
                some (cbm.getD settings_callback_manager)⟩)) ∧
    os_path_join env.cache_dir "models"
      ∈ (resolve_embed_model (.str "local") cbm env deps fs).1.fs := by
  have ha : pyEqDefault (.str "local:foo") = false := by decide
  have hb : pyEqDefault (.str "local") = false := by decide
  have hc : pyStartsWith "local:foo" "clip" = false := by decide
  have hd : pyStartsWith "local" "clip" = false := by decide
  have he : pySplitFirst "local:foo" ':' = ("local", some "foo") := by decide
  have hf2 : pySplitFirst "local" ':' = ("local", none) := by decide
  refine ⟨?_, ?_, ?_⟩ <;>
  · by_cases hmem : os_path_join env.cache_dir "models" ∈ fs <;>
      simp [resolve_embed_model, resolveTail, localStringStep, os_makedirs, ha, hb, hc,
        hd, he, hf2, hhf, hmem, langchainWrapStep, isLCEmb, azureStep, noneFallbackStep,
        setCallbackManager]

theorem local_string_resolution_witness :
    depsAll.huggingface = true ∧
    (resolve_embed_model (.str "local:foo") none envNoCreds depsAll []
      = (⟨[], if os_path_join envNoCreds.cache_dir "models" ∈ ([] : List String)
              then ([] : List String)
              else [os_path_join envNoCreds.cache_dir "models"]⟩,
         .ok (.obj ⟨.huggingface (some "foo") (os_path_join envNoCreds.cache_dir "models"),
                some 0⟩)) ∧
     resolve_embed_model (.str "local") none envNoCreds depsAll []
      = (⟨[], if os_path_join envNoCreds.cache_dir "models" ∈ ([] : List String)
              then ([] : List String)
              else [os_path_join envNoCreds.cache_dir "models"]⟩,
         .ok (.obj ⟨.huggingface none (os_path_join envNoCreds.cache_dir "models"),
                some 0⟩)) ∧
     os_path_join envNoCreds.cache_dir "models"
       ∈ (resolve_embed_model (.str "local") none envNoCreds depsAll []).1.fs) :=
  ⟨rfl, local_string_resolution none envNoCreds depsAll [] rfl⟩

/-- C7: an already-constructed provider object (any attribute-bearing value
other than a langchain `Embeddings` instance) is returned with its kind and
every other observable unchanged and only its `callback_manager` overwritten
to the supplied handle (or the default); resolving the result again with the
same handle yields the identical binding. -/
theorem provider_passthrough_idempotent (k : ObjKind) (c0 : Option Nat)
    (cbm : Option Nat) (env : Env) (deps : Deps) (fs : List String)
    (hk : k ≠ .lcEmbInstance) :
    resolve_embed_model (.obj ⟨k, c0⟩) cbm env deps fs
      = (⟨[], fs⟩,
          .ok (.obj ⟨k, some (cbm.getD settings_callback_manager)⟩)) ∧
    resolve_embed_model (.obj ⟨k, some (cbm.getD settings_callback_manager)⟩)
        cbm env deps fs
      = (⟨[], fs⟩,
          .ok (.obj ⟨k, some (cbm.getD settings_callback_manager)⟩)) := by
  constructor <;>
  · unfold resolve_embed_model
    simp only [pyEqDefault, Bool.false_eq_true, if_false]
    exact resolveTail_obj _ _ _ _ _ _ hk

theorem provider_passthrough_idempotent_witness :
    (ObjKind.preBuilt 3 ≠ ObjKind.lcEmbInstance) ∧
    (resolve_embed_model (.obj ⟨.preBuilt 3, some 9⟩) (some 4) envNoCreds depsAll []
        = (⟨[], []⟩, .ok (.obj ⟨.preBuilt 3, some 4⟩)) ∧
      resolve_embed_model (.obj ⟨.preBuilt 3, some 4⟩) (some 4) envNoCreds depsAll []
        = (⟨[], []⟩, .ok (.obj ⟨.preBuilt 3, some 4⟩))) :=
  ⟨by decide, provider_passthrough_idempotent (.preBuilt 3) (some 9) (some 4)
    envNoCreds depsAll [] (by decide)⟩

/-- C8: with the matching optional dependency missing, each family fails
with its own `ImportError`: the hosted default (outside test mode) names
`llama-index-embeddings-openai`, the clip family names
`llama-index-embeddings-clip`, the local family names
`llama-index-embeddings-huggingface`, and the adapter wrap names
`llama-index-embeddings-langchain`; each message carries its own
`pip install` remediation command and never another family\x27s package
name. -/
theorem missing_dependency_errors (cbm : Option Nat) (env : Env) (deps : Deps)
    (fs : List String) (ht : envTruthy env.IS_TESTING = false)
    (h1 : deps.openai = false) (h2 : deps.clip = false) (h3 : deps.huggingface = false)
    (h4 : deps.langchain_bridge = true) (h5 : deps.langchain = false) :
    ((resolve_embed_model (.str "default") cbm env deps fs).2
        = .error .importErrorOpenai ∧
      (resolve_embed_model (.str "clip") cbm env deps fs).2 = .error .importErrorClip ∧
      (resolve_embed_model (.str "local") cbm env deps fs).2
        = .error .importErrorHuggingface ∧
      (resolve_embed_model (.obj ⟨.lcEmbInstance, none⟩) cbm env deps fs).2
        = .error .importErrorLangchain) ∧
    (Err.isMissingDependency .importErrorOpenai = true ∧
      Err.isMissingDependency .importErrorClip = true ∧
      Err.isMissingDependency .importErrorHuggingface = true ∧
      Err.isMissingDependency .importErrorLangchain = true) ∧
    (strContains (Err.message .importErrorOpenai)
        "pip install llama-index-embeddings-openai" = true ∧
      strContains (Err.message .importErrorClip)
        "pip install llama-index-embeddings-clip" = true ∧
      strContains (Err.message .importErrorHuggingface)
        "pip install llama-index-embeddings-huggingface" = true ∧
      strContains (Err.message .importErrorLangchain)
        "pip install llama-index-embeddings-langchain" = true) ∧
    (strContains (Err.message .importErrorOpenai) "llama-index-embeddings-clip" = false ∧
      strContains (Err.message .importErrorOpenai)
        "llama-index-embeddings-huggingface" = false ∧
      strContains (Err.message .importErrorOpenai)
        "llama-index-embeddings-langchain" = false ∧
      strContains (Err.message .importErrorClip) "llama-index-embeddings-openai" = false ∧
      strContains (Err.message .importErrorClip)
        "llama-index-embeddings-huggingface" = false ∧
      strContains (Err.message .importErrorClip)
        "llama-index-embeddings-langchain" = false ∧
      strContains (Err.message .importErrorHuggingface)
        "llama-index-embeddings-openai" = false ∧
      strContains (Err.message .importErrorHuggingface)
        "llama-index-embeddings-clip" = false ∧
      strContains (Err.message .importErrorHuggingface)
        "llama-index-embeddings-langchain" = false ∧
      strContains (Err.message .importErrorLangchain)
        "llama-index-embeddings-openai" = false ∧
      strContains (Err.message .importErrorLangchain)
        "llama-index-embeddings-clip" = false ∧
      strContains (Err.message .importErrorLangchain)
        "llama-index-embeddings-huggingface" = false) := by
  have hdef : pyEqDefault (.str "default") = true := by decide
  have hcl : pyEqDefault (.str "clip") = false := by decide
  have hlo : pyEqDefault (.str "local") = false := by decide
  have hsw1 : pyStartsWith "clip" "clip" = true := by decide
  have hsw2 : pyStartsWith "local" "clip" = false := by decide
  refine ⟨⟨?_, ?_, ?_, ?_⟩, by decide, by decide, by decide⟩
  · simp [resolve_embed_model, hdef, ht, h1]
  · simp [resolve_embed_model, hcl, hsw1, h2]
  · simp [resolve_embed_model, hlo, hsw2, resolveTail, localStringStep, h3]
  · simp [resolve_embed_model, pyEqDefault, resolveTail, localStringStep,
      langchainWrapStep, isLCEmb, h4, h5]

theorem missing_dependency_errors_witness :
    (envTruthy envNoCreds.IS_TESTING = false ∧ depsBare.openai = false ∧
      depsBare.clip = false ∧ depsBare.huggingface = false ∧
      depsBare.langchain_bridge = true ∧ depsBare.langchain = false) ∧
    ((resolve_embed_model (.str "default") none envNoCreds depsBare []).2
        = .error .importErrorOpenai ∧
      (resolve_embed_model (.str "clip") none envNoCreds depsBare []).2
        = .error .importErrorClip ∧
      (resolve_embed_model (.str "local") none envNoCreds depsBare []).2
        = .error .importErrorHuggingface ∧
      (resolve_embed_model (.obj ⟨.lcEmbInstance, none⟩) none envNoCreds depsBare []).2
        = .error .importErrorLangchain) :=
  ⟨⟨rfl, rfl, rfl, rfl, rfl, rfl⟩,
    (missing_dependency_errors none envNoCreds depsBare [] rfl rfl rfl rfl rfl rfl).1⟩

/-- C9: with the clip dependency importable, a specifier `"clip:<name>"`
(name free of further colons) constructs the clip provider with exactly
`<name>`, and any string starting with `"clip"` and containing no colon
constructs it with the default model name `"ViT-B/32"`. -/
theorem clip_model_name_extraction (cbm : Option Nat) (env : Env) (deps : Deps)
    (fs : List String) (hclip : deps.clip = true) :
    (∀ name : List Char, charIn ':' name = false →
      resolve_embed_model (.str (String.mk ('c' :: 'l' :: 'i' :: 'p' :: ':' :: name)))
          cbm env deps fs
        = (⟨[], fs⟩, .ok (.obj ⟨.clip (String.mk name),
            some (cbm.getD settings_callback_manager)⟩))) ∧
    (∀ s : String, pyStartsWith s "clip" = true → pyContainsChar s ':' = false →
      resolve_embed_model (.str s) cbm env deps fs
        = (⟨[], fs⟩, .ok (.obj ⟨.clip "ViT-B/32",
            some (cbm.getD settings_callback_manager)⟩))) := by
  constructor
  · intro name hname
    have h0 : pyEqDefault (.str (String.mk ('c' :: 'l' :: 'i' :: 'p' :: ':' :: name))) = false := by
      simp only [pyEqDefault]
      refine decide_eq_false (mk_ne_str _ _ ?_)
      intro hh
      have h1 : ('c' :: 'l' :: 'i' :: 'p' :: ':' :: name) = ['d','e','f','a','u','l','t'] := hh
      injection h1 with h1a h1b
      exact absurd h1a (by decide)
    have hsw : pyStartsWith (String.mk ('c' :: 'l' :: 'i' :: 'p' :: ':' :: name)) "clip" = true := rfl
    have hct : pyContainsChar (String.mk ('c' :: 'l' :: 'i' :: 'p' :: ':' :: name)) ':' = true := rfl
    have hsp : pySplit (String.mk ('c' :: 'l' :: 'i' :: 'p' :: ':' :: name)) ':'
        = ["clip", String.mk name] := by
      unfold pySplit
      rw [show (String.mk ('c' :: 'l' :: 'i' :: 'p' :: ':' :: name)).data
          = ['c','l','i','p'] ++ ':' :: name from rfl]
      rw [splitAux_append_sep ':' _ _ (by decide), splitAux_of_not_mem ':' name hname]
      rfl
    unfold resolve_embed_model
    simp only [h0, Bool.false_eq_true, if_false, hsw, hct, hsp, if_true, hclip]
    rw [if_neg (by simp [hclip])]
    simp only [List.getD, List.get?, Option.getD]
    exact resolveTail_obj _ _ _ _ _ _ (by simp)
  · intro s hsw hct
    have hne : pyEqDefault (.str s) = false := by
      simp only [pyEqDefault]
      refine decide_eq_false ?_
      intro hh
      rw [hh] at hsw
      exact absurd hsw (by decide)
    unfold resolve_embed_model
    simp only [hne, Bool.false_eq_true, if_false, hsw, hct, if_true]
    rw [if_neg (by simp [hclip])]
    exact resolveTail_obj _ _ _ _ _ _ (by simp)

theorem clip_model_name_extraction_witness :
    depsAll.clip = true ∧ charIn ':' ['V'] = false ∧
    resolve_embed_model (.str (String.mk ('c' :: 'l' :: 'i' :: 'p' :: ':' :: ['V'])))
        none envNoCreds depsAll []
      = (⟨[], []⟩, .ok (.obj ⟨.clip (String.mk ['V']), some 0⟩)) ∧
    pyStartsWith "clipx" "clip" = true ∧ pyContainsChar "clipx" ':' = false ∧
    resolve_embed_model (.str "clipx") none envNoCreds depsAll []
      = (⟨[], []⟩, .ok (.obj ⟨.clip "ViT-B/32", some 0⟩)) :=
  ⟨rfl, by decide,
    (clip_model_name_extraction none envNoCreds depsAll [] rfl).1 ['V'] (by decide),
    by decide, by decide,
    (clip_model_name_extraction none envNoCreds depsAll [] rfl).2 "clipx" (by decide)
      (by decide)⟩

/-- C10: the persistence round trip.  For a non-empty embedding list whose
components print to clean tokens that parse back exactly — the behaviour
Python guarantees for finite non-NaN floats — `load_embedding` after
`save_embedding` recovers the list; and `load_embedding` reads only the
first line of a file, ignoring everything after the first newline. -/
theorem save_load_roundtrip (M : FloatModel) (e : List M.F) (l : String) (rest : List Char)
    (h1 : e ≠ [])
    (h2 : ∀ x ∈ e, M.ofStr (M.str x) = some x ∧ cleanToken (M.str x) = true)
    (h3 : charIn '\n' l.data = false) :
    load_embedding M (save_embedding M e) = some e ∧
    load_embedding M (String.mk (l.data ++ '\n' :: rest)) =
      load_embedding M (String.mk (l.data ++ ['\n'])) := by
  constructor
  · have htok : ∀ t ∈ e.map M.str, t.data ≠ [] ∧
        ∀ c ∈ t.data, ¬(c = ',') ∧ c.isWhitespace = false := by
      intro t ht
      obtain ⟨x, hx, rfl⟩ := List.mem_map.mp ht
      have hct := (h2 x hx).2
      simp [cleanToken] at hct
      exact hct
    obtain ⟨x0, e', rfl⟩ : ∃ x0 e', e = x0 :: e' := by
      cases e with
      | nil => exact absurd rfl h1
      | cons a b => exact ⟨a, b, rfl⟩
    have hdata : (save_embedding M (x0 :: e')).data
        = joinWithChar ',' (((x0 :: e').map M.str).map String.data) := by
      unfold save_embedding
      exact joinComma_data _
    have hhead : ((M.str x0).data : List Char) ≠ [] :=
      (htok (M.str x0) (by simp)).1
    have hnonl : charIn '\n' (joinWithChar ',' (((x0 :: e').map M.str).map String.data))
        = false := by
      refine charIn_joinWithChar _ _ (by decide) _ ?_
      intro t htl
      obtain ⟨t0, ht0, rfl⟩ := List.mem_map.mp htl
      rw [charIn_eq_false]
      intro hmem
      exact absurd ((((htok t0 ht0).2) _ hmem).2)
        (by simp [(by decide : ('\n' : Char).isWhitespace = true)])
    have hne2 : joinWithChar ',' (((x0 :: e').map M.str).map String.data) ≠ [] := by
      simp only [List.map_cons]
      exact joinWithChar_ne_nil _ _ _ hhead
    have hsplit : splitAux ',' (joinWithChar ',' (((x0 :: e').map M.str).map String.data))
        = ((x0 :: e').map M.str).map String.data := by
      refine splitAux_joinWithChar _ _ (by simp) ?_
      intro t htl
      obtain ⟨t0, ht0, rfl⟩ := List.mem_map.mp htl
      rw [charIn_eq_false]
      intro hmem
      exact absurd hmem (by
        intro hm
        exact (((htok t0 ht0).2) _ hm).1 rfl)
    have hws : ∀ c ∈ joinWithChar ',' (((x0 :: e').map M.str).map String.data),
        c.isWhitespace = false := by
      intro c hc
      rcases mem_joinWithChar _ _ _ hc with hcc | ⟨t, htl, hct⟩
      · subst hcc
        decide
      · obtain ⟨t0, ht0, rfl⟩ := List.mem_map.mp htl
        exact (((htok t0 ht0).2) _ hct).2
    unfold load_embedding
    rw [hdata, splitLines_no_newline _ hne2 hnonl]
    show pyMapFloat M (pySplit (pyStrip
      (String.mk (joinWithChar ',' (((x0 :: e').map M.str).map String.data)))) ',')
      = some (x0 :: e')
    rw [pyStrip_id (String.mk (joinWithChar ',' (((x0 :: e').map M.str).map String.data)))
      hws]
    unfold pySplit
    rw [show (String.mk (joinWithChar ',' (((x0 :: e').map M.str).map String.data))).data
        = joinWithChar ',' (((x0 :: e').map M.str).map String.data) from rfl, hsplit,
      map_mk_map_data]
    exact pyMapFloat_map_str M _ (fun x hx => (h2 x hx).1)
  · have e1 : splitLines (l.data ++ '\n' :: rest) = (l.data ++ ['\n']) :: splitLines rest :=
      splitLines_append _ _ h3
    have e2 : splitLines (l.data ++ '\n' :: []) = (l.data ++ ['\n']) :: splitLines [] :=
      splitLines_append _ _ h3
    unfold load_embedding
    rw [show (String.mk (l.data ++ '\n' :: rest)).data = l.data ++ '\n' :: rest from rfl,
      e1, show (String.mk (l.data ++ ['\n'])).data = l.data ++ '\n' :: [] from rfl, e2]

theorem save_load_roundtrip_witness :
    (([(), ()] : List unitFloatModel.F) ≠ []) ∧
    (∀ x ∈ ([(), ()] : List unitFloatModel.F),
      unitFloatModel.ofStr (unitFloatModel.str x) = some x ∧
        cleanToken (unitFloatModel.str x) = true) ∧
    charIn '\n' ("7" : String).data = false ∧
    (load_embedding unitFloatModel (save_embedding unitFloatModel [(), ()])
        = some [(), ()] ∧
      load_embedding unitFloatModel (String.mk (("7" : String).data ++ '\n' :: ['9']))
        = load_embedding unitFloatModel (String.mk (("7" : String).data ++ ['\n']))) :=
  ⟨by decide, by decide, by decide,
    save_load_roundtrip unitFloatModel [(), ()] "7" ['9'] (by decide) (by decide)
      (by decide)⟩
